import Mathlib

/-!
Verification of the ControlEye display-state scheduler (src/main.py).

The Python source drives Windows display APIs from a Tk GUI.  The core logic
verified here is the scheduler: per-monitor auto-blank time windows, the
on/off state query, the blank operation that records pre-blank geometry, and
the restore path.  Stateful Python code is embedded as explicit state passing:
the `original_settings` dictionary becomes an association list threaded
through each operation, and every operation additionally returns the list of
OS display-API calls it performs (`Action`), so that claims about which
devices a code path touches are provable.

Fallible OS calls are embedded as `Option` results: `EnumDisplaySettings`
raising an exception is `none`, succeeding is `some mode`.  The outcome of
`ChangeDisplaySettings(None, 0)` and of per-device `ChangeDisplaySettingsEx`
calls is part of the environment (`DisplayEnv`), since the Python code only
branches on their success codes.
-/

namespace ControlEye

/-- One OS display-API interaction performed by an embedded operation.
`queryCurrent` is `EnumDisplaySettings(dev, ENUM_CURRENT_SETTINGS)` (attempted,
whether or not it succeeds), `queryRegistry` is the `ENUM_REGISTRY_SETTINGS`
variant, `applyMode` is `ChangeDisplaySettingsEx(dev, mode, ...)`, and
`changeAll` is the process-wide `ChangeDisplaySettings(None, 0)` refresh. -/
inductive Action where
  | queryCurrent (dev : String)
  | queryRegistry (dev : String)
  | applyMode (dev : String) (pelsWidth pelsHeight : Nat) (posX posY : Int)
  | changeAll
  deriving DecidableEq

/-- Whether an action is a `ChangeDisplaySettingsEx` mode application. -/
def Action.isApplyMode : Action → Bool
  | .applyMode _ _ _ _ _ => true
  | _ => false

/-- A DEVMODE as read back from `EnumDisplaySettings`: `PelsWidth`,
`PelsHeight`, `Position_x`, `Position_y` (src/main.py lines 402-407). -/
structure DevMode where
  pelsWidth : Nat
  pelsHeight : Nat
  posX : Int
  posY : Int
  deriving DecidableEq

/-- One OS display device as seen through `EnumDisplayDevices` /
`EnumDisplaySettings`.  `currentSettings = none` models the
`ENUM_CURRENT_SETTINGS` query raising an exception (frequent on a blanked
device), `registrySettings = none` likewise for `ENUM_REGISTRY_SETTINGS`. -/
structure DisplayDevice where
  deviceName : String
  currentSettings : Option DevMode
  registrySettings : Option DevMode
  deriving DecidableEq

/-- The display environment a tick runs against: the enumerated devices in OS
order, whether `ChangeDisplaySettings(None, 0)` reports
`DISP_CHANGE_SUCCESSFUL` (src/main.py line 810), and whether a per-device
`ChangeDisplaySettingsEx` call succeeds for a given device and mode. -/
structure DisplayEnv where
  devices : List DisplayDevice
  changeAllOk : Bool
  applyOk : String → DevMode → Bool

/-- One monitor record produced by `get_screen_info` (src/main.py lines
199-214): 1-based id, human-readable name, resolution, virtual-screen
position, primary flag. -/
structure Monitor where
  id : Nat
  name : String
  width : Nat
  height : Nat
  x : Int
  y : Int
  isPrimary : Bool
  deriving DecidableEq

/-- One entry of the `original_settings` dictionary: the pre-blank mode saved
for a device in `turn_off_screen` (src/main.py lines 779-784). -/
structure SavedGeometry where
  width : Nat
  height : Nat
  positionX : Int
  positionY : Int
  deriving DecidableEq

/-- The `original_settings` dictionary, keyed by OS device name. -/
abbrev SavedSettings := List (String × SavedGeometry)

/-- Dictionary assignment `original_settings[device_name] = ...`: overwrite
the entry for the key if present, otherwise append it. -/
def setEntry (l : SavedSettings) (k : String) (v : SavedGeometry) : SavedSettings :=
  match l with
  | [] => [(k, v)]
  | (k', v') :: rest => if k' == k then (k, v) :: rest else (k', v') :: setEntry rest k v

/-- Current-mode query for a device name: find the enumerated device and read
its current settings; `none` models the query raising. -/
def deviceCurrent (env : DisplayEnv) (dn : String) : Option DevMode :=
  (env.devices.find? (fun d => d.deviceName == dn)).bind (fun d => d.currentSettings)

/-- Registry-mode query for a device name. -/
def deviceRegistry (env : DisplayEnv) (dn : String) : Option DevMode :=
  (env.devices.find? (fun d => d.deviceName == dn)).bind (fun d => d.registrySettings)

/-- The geometry comparison of `get_device_name_by_monitor` (src/main.py
lines 404-407): position and size of a queried mode against the monitor. -/
def matchesMode (s : DevMode) (m : Monitor) : Bool :=
  s.posX == m.x && s.posY == m.y && s.pelsWidth == m.width && s.pelsHeight == m.height

/-- The saved-settings comparison of `get_device_name_by_monitor`
(src/main.py lines 423-426). -/
def matchesSaved (g : SavedGeometry) (m : Monitor) : Bool :=
  g.positionX == m.x && g.positionY == m.y && g.width == m.width && g.height == m.height

/-- The device scan of `get_device_name_by_monitor` (src/main.py lines
393-433): for each enumerated device, compare its current mode against the
monitor; if the current query fails, compare the registry mode; if that also
fails, compare any saved `original_settings` entry for the device.  Returns
the first matching device name and the trace of mode queries attempted. -/
def findDeviceLoop (orig : SavedSettings) (m : Monitor) :
    List DisplayDevice → Option String × List Action
  | [] => (none, [])
  | d :: ds =>
    match d.currentSettings with
    | some s =>
      if matchesMode s m then (some d.deviceName, [Action.queryCurrent d.deviceName])
      else
        let r := findDeviceLoop orig m ds
        (r.1, Action.queryCurrent d.deviceName :: r.2)
    | none =>
      match d.registrySettings with
      | some s =>
        if matchesMode s m then
          (some d.deviceName,
           [Action.queryCurrent d.deviceName, Action.queryRegistry d.deviceName])
        else
          let r := findDeviceLoop orig m ds
          (r.1, Action.queryCurrent d.deviceName :: Action.queryRegistry d.deviceName :: r.2)
      | none =>
        match orig.lookup d.deviceName with
        | some g =>
          if matchesSaved g m then
            (some d.deviceName,
             [Action.queryCurrent d.deviceName, Action.queryRegistry d.deviceName])
          else
            let r := findDeviceLoop orig m ds
            (r.1, Action.queryCurrent d.deviceName :: Action.queryRegistry d.deviceName :: r.2)
        | none =>
          let r := findDeviceLoop orig m ds
          (r.1, Action.queryCurrent d.deviceName :: Action.queryRegistry d.deviceName :: r.2)

/-- The index-based fallback of `get_device_name_by_monitor` (src/main.py
lines 435-442): when no device matched geometrically, return the device at
enumeration index `monitor.id - 1` if it exists (`EnumDisplayDevices` raising
on an out-of-range index is caught and yields `none`). -/
def indexFallback (env : DisplayEnv) (m : Monitor) : Option String :=
  if m.id = 0 then none
  else
    match env.devices.get? (m.id - 1) with
    | some d => some d.deviceName
    | none => none

/-- `get_device_name_by_monitor` (src/main.py lines 389-446): the geometric
scan over all devices, then the index fallback. -/
def getDeviceNameByMonitor (env : DisplayEnv) (orig : SavedSettings) (m : Monitor) :
    Option String × List Action :=
  let r := findDeviceLoop orig m env.devices
  match r.1 with
  | some dn => (some dn, r.2)
  | none =>
    match indexFallback env m with
    | some dn => (some dn, r.2)
    | none => (none, r.2)

/-- `is_monitor_on` (src/main.py lines 1206-1228): resolve the device name
(unresolvable means on / fail open); a saved `original_settings` entry means
off; otherwise the current-mode query decides (a failing query means off,
a succeeding one means on exactly when both dimensions are nonzero). -/
def isMonitorOn (env : DisplayEnv) (orig : SavedSettings) (m : Monitor) :
    Bool × List Action :=
  let r := getDeviceNameByMonitor env orig m
  match r.1 with
  | none => (true, r.2)
  | some dn =>
    if (orig.lookup dn).isSome then (false, r.2)
    else
      match deviceCurrent env dn with
      | some s =>
        (decide (0 < s.pelsWidth) && decide (0 < s.pelsHeight),
         r.2 ++ [Action.queryCurrent dn])
      | none => (false, r.2 ++ [Action.queryCurrent dn])

/-- `turn_off_screen` (src/main.py lines 764-798): resolve the device name
(failure shows a dialog and returns); read the current settings (a raising
query is caught by the outer handler and nothing is recorded); save them into
`original_settings` (unconditional dictionary assignment); apply the zero-size
mode keeping the current position.  The apply result only drives a dialog, so
the saved entry stays either way. -/
def turnOffScreen (env : DisplayEnv) (orig : SavedSettings) (m : Monitor) :
    SavedSettings × List Action :=
  let r := getDeviceNameByMonitor env orig m
  match r.1 with
  | none => (orig, r.2)
  | some dn =>
    match deviceCurrent env dn with
    | none => (orig, r.2 ++ [Action.queryCurrent dn])
    | some s =>
      (setEntry orig dn ⟨s.pelsWidth, s.pelsHeight, s.posX, s.posY⟩,
       r.2 ++ [Action.queryCurrent dn, Action.applyMode dn 0 0 s.posX s.posY])

/-- Method 2 of `force_refresh_displays` (src/main.py lines 822-844): walk the
devices, and for each whose current-mode query succeeds with nonzero size,
re-apply that mode; count the successful applications. -/
def refreshLoop (env : DisplayEnv) : List DisplayDevice → Nat × List Action
  | [] => (0, [])
  | d :: ds =>
    let rest := refreshLoop env ds
    match d.currentSettings with
    | some s =>
      if decide (0 < s.pelsWidth) && decide (0 < s.pelsHeight) then
        ((if env.applyOk d.deviceName s then rest.1 + 1 else rest.1),
         Action.queryCurrent d.deviceName ::
           Action.applyMode d.deviceName s.pelsWidth s.pelsHeight s.posX s.posY :: rest.2)
      else (rest.1, Action.queryCurrent d.deviceName :: rest.2)
    | none => (rest.1, Action.queryCurrent d.deviceName :: rest.2)

/-- `force_refresh_displays` (src/main.py lines 806-852): first the
process-wide `ChangeDisplaySettings(None, 0)`; on success report true,
otherwise fall back to re-applying each device's current nonzero mode and
report whether any application succeeded. -/
def forceRefreshDisplays (env : DisplayEnv) : Bool × List Action :=
  if env.changeAllOk then (true, [Action.changeAll])
  else
    let r := refreshLoop env env.devices
    (decide (0 < r.1), Action.changeAll :: r.2)

/-- `reset_displays` (src/main.py lines 1099-1116): run the force refresh; on
success clear the whole `original_settings` dictionary (the UI refresh that
follows is outside this model); on failure change nothing. -/
def resetDisplays (env : DisplayEnv) (orig : SavedSettings) :
    SavedSettings × List Action :=
  let r := forceRefreshDisplays env
  if r.1 then ([], r.2) else (orig, r.2)

/-- The per-entry replay of `restore_all_screens` (src/main.py lines
882-912): for each saved entry whose device is still enumerated, read current
(else registry) settings — both failing skips the entry — then apply the saved
geometry and count successes. -/
def restoreLoop (env : DisplayEnv) (avail : List String) :
    SavedSettings → Nat × List Action
  | [] => (0, [])
  | (dn, g) :: rest =>
    if avail.contains dn then
      match deviceCurrent env dn with
      | some _ =>
        let r := restoreLoop env avail rest
        ((if env.applyOk dn ⟨g.width, g.height, g.positionX, g.positionY⟩
          then r.1 + 1 else r.1),
         Action.queryCurrent dn ::
           Action.applyMode dn g.width g.height g.positionX g.positionY :: r.2)
      | none =>
        match deviceRegistry env dn with
        | some _ =>
          let r := restoreLoop env avail rest
          ((if env.applyOk dn ⟨g.width, g.height, g.positionX, g.positionY⟩
            then r.1 + 1 else r.1),
           Action.queryCurrent dn :: Action.queryRegistry dn ::
             Action.applyMode dn g.width g.height g.positionX g.positionY :: r.2)
        | none =>
          let r := restoreLoop env avail rest
          (r.1, Action.queryCurrent dn :: Action.queryRegistry dn :: r.2)
    else restoreLoop env avail rest

/-- `restore_all_screens` (src/main.py lines 854-919): no-op when nothing is
saved; otherwise force refresh and, on success, clear the saved settings; on
failure replay every saved entry's geometry per device and clear the saved
settings when at least one replay succeeded. -/
def restoreAllScreens (env : DisplayEnv) (orig : SavedSettings) :
    SavedSettings × List Action :=
  if orig.isEmpty then (orig, [])
  else
    let fr := forceRefreshDisplays env
    if fr.1 then ([], fr.2)
    else
      let avail := env.devices.map (fun d => d.deviceName)
      let r := restoreLoop env avail orig
      ((if decide (0 < r.1) then [] else orig), fr.2 ++ r.2)

/-- Python `int()` applied to a spinbox string (src/main.py lines 1164-1169):
an optional sign followed by one or more decimal digits; anything else raises
`ValueError`, embedded as `none`. -/
def digitsToNat : List Char → Option Nat
  | [] => none
  | cs =>
    if cs.all Char.isDigit then
      some (cs.foldl (fun a c => a * 10 + (c.toNat - 48)) 0)
    else none

/-- Python `int()` on a string, including a leading sign. -/
def parseIntStr (s : String) : Option Int :=
  match s.data with
  | [] => none
  | c :: rest =>
    if c = '-' then (digitsToNat rest).map (fun n => -(n : Int))
    else if c = '+' then (digitsToNat rest).map (fun n => (n : Int))
    else (digitsToNat (c :: rest)).map (fun n => (n : Int))

/-- Seconds-of-day conversion `hour * 3600 + min * 60 + sec`
(src/main.py lines 1172-1174). -/
def toTotalSec (h m s : Int) : Int :=
  h * 3600 + m * 60 + s

/-- The in-window test of `check_auto_screen_off` (src/main.py lines
1177-1183): within-day windows use `start <= now <= end`; windows crossing
midnight use `now >= start or now <= end`. -/
def inSleepTime (startSec endSec nowSec : Int) : Bool :=
  if startSec ≤ endSec then decide (startSec ≤ nowSec) && decide (nowSec ≤ endSec)
  else decide (nowSec ≥ startSec) || decide (nowSec ≤ endSec)

/-- One entry of `preview_widgets` as the scheduler reads it (src/main.py
lines 1145-1169): the live auto-enabled flag and the six time spinbox
strings; `monitor` mirrors the `widget_info.get('monitor')` guard. -/
structure WidgetInfo where
  monitor : Option Monitor
  autoEnabled : Bool
  startHourVar : String
  startMinVar : String
  startSecVar : String
  endHourVar : String
  endMinVar : String
  endSecVar : String
  deriving DecidableEq

/-- The time parsing and seconds conversion of `check_auto_screen_off`
(src/main.py lines 1164-1174): all six spinbox strings go through `int()`;
any `ValueError` aborts this monitor's evaluation (`none`). -/
def parseScheduleTimes (w : WidgetInfo) : Option (Int × Int) :=
  match parseIntStr w.startHourVar, parseIntStr w.startMinVar, parseIntStr w.startSecVar,
        parseIntStr w.endHourVar, parseIntStr w.endMinVar, parseIntStr w.endSecVar with
  | some sh, some sm, some ss, some eh, some em, some es =>
    some (toTotalSec sh sm ss, toTotalSec eh em es)
  | _, _, _, _, _, _ => none

/-- One monitor's evaluation inside a scheduler tick (src/main.py lines
1145-1200): skip when auto-blank is disabled; parse the six time strings
(failure is caught by the per-monitor handler and skips the monitor); skip a
missing monitor record; inside the window blank an awake monitor, outside it
run the global reset when the monitor is off. -/
def tickStep (env : DisplayEnv) (nowSec : Int) (orig : SavedSettings)
    (w : WidgetInfo) : SavedSettings × List Action :=
  if w.autoEnabled = false then (orig, [])
  else
    match parseScheduleTimes w with
    | none => (orig, [])
    | some se =>
      match w.monitor with
      | none => (orig, [])
      | some m =>
        if inSleepTime se.1 se.2 nowSec then
          let q := isMonitorOn env orig m
          if q.1 then
            let r := turnOffScreen env orig m
            (r.1, q.2 ++ r.2)
          else (orig, q.2)
        else
          let q := isMonitorOn env orig m
          if q.1 then (orig, q.2)
          else
            let r := resetDisplays env orig
            (r.1, q.2 ++ r.2)

/-- The widget loop of `check_auto_screen_off` (src/main.py lines 1145-1200),
threading `original_settings` through the per-monitor evaluations and
concatenating their display-API traces. -/
def tickLoop (env : DisplayEnv) (nowSec : Int) :
    SavedSettings → List WidgetInfo → SavedSettings × List Action
  | orig, [] => (orig, [])
  | orig, w :: ws =>
    let r := tickStep env nowSec orig w
    let rest := tickLoop env nowSec r.1 ws
    (rest.1, r.2 ++ rest.2)

/-- `check_auto_screen_off` (src/main.py lines 1131-1204): one scheduler tick
over the widget list (the empty-list early return coincides with the empty
loop). -/
def checkAutoScreenOff (env : DisplayEnv) (nowSec : Int) (orig : SavedSettings)
    (widgets : List WidgetInfo) : SavedSettings × List Action :=
  tickLoop env nowSec orig widgets

/-- `get_monitor_config_key` (src/main.py lines 136-139): the stable key is
the monitor name joined with its `width x height` resolution. -/
def getMonitorConfigKey (m : Monitor) : String :=
  m.name ++ "_" ++ toString m.width ++ "x" ++ toString m.height

/-- The in-memory INI model: section name to list of option assignments. -/
structure ConfigFile where
  sections : List (String × List (String × String))
  deriving DecidableEq

/-- Section lookup, `key in self.config` plus `self.config[key]`. -/
def lookupSection (cfg : ConfigFile) (key : String) :
    Option (List (String × String)) :=
  cfg.sections.lookup key

/-- The loaded per-monitor configuration (src/main.py lines 177-188). -/
structure MonitorConfig where
  autoEnabled : Bool
  startTime : String
  endTime : String
  deriving DecidableEq

/-- ASCII lower-casing of a stored option value, as `value.lower()` does
inside `configparser`'s boolean conversion. -/
def lowerStr (s : String) : String :=
  String.mk (s.data.map Char.toLower)

/-- The `configparser` boolean conversion used by `getboolean`: the
case-insensitive truth and falsity words; anything else raises `ValueError`,
embedded as `none`. -/
def parseBoolean (s : String) : Option Bool :=
  let l := lowerStr s
  if l = "1" ∨ l = "yes" ∨ l = "true" ∨ l = "on" then some true
  else if l = "0" ∨ l = "no" ∨ l = "false" ∨ l = "off" then some false
  else none

/-- `load_monitor_config` (src/main.py lines 172-188): with no section for the
stable key the hard-coded defaults are returned.  With a section, `getboolean`
with `fallback=False` returns `false` for a missing option but raises for an
unparsable one; that exception is caught and also yields the hard-coded
defaults.  The two time strings use `config.get` with per-field fallbacks,
which never raises. -/
def loadMonitorConfig (cfg : ConfigFile) (m : Monitor) : MonitorConfig :=
  match lookupSection cfg (getMonitorConfigKey m) with
  | none => ⟨false, "17:0:0", "7:0:0"⟩
  | some sec =>
    match sec.lookup "auto_enabled" with
    | none =>
      ⟨false, (sec.lookup "start_time").getD "22:00:00",
       (sec.lookup "end_time").getD "08:00:00"⟩
    | some v =>
      match parseBoolean v with
      | none => ⟨false, "17:0:0", "7:0:0"⟩
      | some b =>
        ⟨b, (sec.lookup "start_time").getD "22:00:00",
         (sec.lookup "end_time").getD "08:00:00"⟩

/-- Python `str.split` with a single-character separator, over char lists. -/
def splitCharList (sep : Char) : List Char → List (List Char)
  | [] => [[]]
  | c :: cs =>
    let r := splitCharList sep cs
    if c = sep then [] :: r
    else
      match r with
      | [] => [[c]]
      | g :: gs => (c :: g) :: gs

/-- Python `value.split(sep)` on a string. -/
def splitOnChar (sep : Char) (s : String) : List String :=
  (splitCharList sep s.data).map (fun cs => String.mk cs)

/-- Interpretation of a stored `"H:M:S"` time string as the widget layer and
the scheduler consume it: split on colons (src/main.py lines 488-489) and run
each part through `int()` (src/main.py lines 1164-1169). -/
def parseTimeString (s : String) : Option (Int × Int × Int) :=
  match (splitOnChar ':' s).map parseIntStr with
  | [some h, some m, some sec] => some (h, m, sec)
  | _ => none

/-- Specification-side restatement (amended claim C6) of the per-device match
of `get_device_name_by_monitor`: try the current mode, then the registry mode
when the current query fails, then any saved geometry when both queries
fail. -/
def deviceMatchesSpec (orig : SavedSettings) (m : Monitor) (d : DisplayDevice) : Bool :=
  match d.currentSettings with
  | some s => matchesMode s m
  | none =>
    match d.registrySettings with
    | some s => matchesMode s m
    | none =>
      match orig.lookup d.deviceName with
      | some g => matchesSaved g m
      | none => false

/-- Specification-side restatement (amended claim C6) of device resolution:
the first device matching the fallback chain; otherwise the device at
enumeration index `id - 1`; nothing only when that also fails. -/
def specResolveDeviceName (env : DisplayEnv) (orig : SavedSettings) (m : Monitor) :
    Option String :=
  match env.devices.find? (deviceMatchesSpec orig m) with
  | some d => some d.deviceName
  | none => indexFallback env m

/-! Concrete contexts used by witnesses and counterexamples. -/

/-- A device whose current and registry mode queries both raise (a blanked
device on the reference platform). -/
def devBlankD1 : DisplayDevice := ⟨"D1", none, none⟩

/-- A blanked device, and both the global refresh and every per-device apply
report failure. -/
def envNoRefresh : DisplayEnv := ⟨[devBlankD1], false, fun _ _ => true⟩

/-- The pre-blank geometry recorded for device D1. -/
def savedD1 : SavedGeometry := ⟨1920, 1080, 0, 0⟩

/-- An `original_settings` state tracking D1 as blanked. -/
def origD1 : SavedSettings := [("D1", savedD1)]

/-- The monitor record for the display backed by D1 (pre-blank geometry). -/
def monD1 : Monitor := ⟨1, "MonA", 1920, 1080, 0, 0, true⟩

/-- A widget with auto-blank enabled and window 08:00:00-09:00:00. -/
def widD1 : WidgetInfo := ⟨some monD1, true, "8", "0", "0", "9", "0", "0"⟩

/-- Same blanked device, but the global refresh succeeds. -/
def envRefreshOk : DisplayEnv := ⟨[devBlankD1], true, fun _ _ => true⟩

/-- A blanked device whose registry-mode query still succeeds. -/
def devRegD1 : DisplayDevice := ⟨"D1", none, some ⟨1920, 1080, 0, 0⟩⟩

/-- Registry-readable blanked device with the global refresh failing. -/
def envRegNoRefresh : DisplayEnv := ⟨[devRegD1], false, fun _ _ => true⟩

/-- A blanked device whose current-mode query succeeds reporting size 0 x 0. -/
def devZeroD1 : DisplayDevice := ⟨"D1", some ⟨0, 0, 0, 0⟩, none⟩

/-- Environment for the zero-size current-mode reading. -/
def envZeroMode : DisplayEnv := ⟨[devZeroD1], false, fun _ _ => true⟩

/-- An awake device whose geometry matches no monitor below. -/
def devOtherD1 : DisplayDevice := ⟨"D1", some ⟨800, 600, 0, 0⟩, none⟩

/-- Environment with only the geometrically non-matching device. -/
def envOther : DisplayEnv := ⟨[devOtherD1], true, fun _ _ => true⟩

/-- A monitor whose geometry matches no enumerated device. -/
def monNoMatch : Monitor := ⟨1, "MonB", 1024, 768, 100, 0, true⟩

/-- A small monitor whose stable key is `A_8x6`. -/
def monKeyA : Monitor := ⟨1, "A", 8, 6, 0, 0, true⟩

/-- The same name and resolution as `monKeyA` under a different enumeration
id, position and primary flag (simulated device reassignment). -/
def monKeyB : Monitor := ⟨2, "A", 8, 6, 100, 50, false⟩

/-- An empty configuration file (absent or unreadable on load). -/
def cfgEmpty : ConfigFile := ⟨[]⟩

/-- A persisted section for `A_8x6` whose `auto_enabled` value parses as no
boolean. -/
def cfgBadBool : ConfigFile := ⟨[("A_8x6", [("auto_enabled", "banana")])]⟩

/-- A persisted section for `A_8x6` with `auto_enabled` missing entirely. -/
def cfgNoBool : ConfigFile := ⟨[("A_8x6", [("start_time", "1:2:3")])]⟩

/-- A widget with auto-blank disabled. -/
def widDisabled : WidgetInfo := ⟨some monD1, false, "0", "0", "0", "0", "0", "0"⟩

/-- An enabled widget whose start-hour string makes `int()` raise. -/
def widBadTimes : WidgetInfo := ⟨some monD1, true, "xx", "0", "0", "7", "0", "0"⟩

/-! Claim theorems. -/

/-- C1: for every start, end and now time of day expressed as seconds
(`hour * 3600 + min * 60 + sec`), the scheduler's in-window test returns
`start <= now and now <= end` when `start <= end`, and
`now >= start or now <= end` otherwise, with all boundaries inclusive. -/
theorem c1_in_window_formula (sh sm ss eh em es nh nm ns : Int) :
    inSleepTime (toTotalSec sh sm ss) (toTotalSec eh em es) (toTotalSec nh nm ns) = true ↔
      (if toTotalSec sh sm ss ≤ toTotalSec eh em es then
        toTotalSec sh sm ss ≤ toTotalSec nh nm ns ∧ toTotalSec nh nm ns ≤ toTotalSec eh em es
      else
        toTotalSec nh nm ns ≥ toTotalSec sh sm ss ∨ toTotalSec nh nm ns ≤ toTotalSec eh em es) := by
  by_cases h : toTotalSec sh sm ss ≤ toTotalSec eh em es <;>
    simp [inSleepTime, h, ge_iff_le]

/-- C2 counterexample: a tick that finds the monitor outside its window and
in the Blanked state, with the process-wide force-refresh failing and a saved
geometry tracked for the device: the tick leaves the saved geometry untouched
and performs no `ChangeDisplaySettingsEx` at all — it does not fall back to
replaying the per-device SavedGeometry.  The replay the claim describes lives
only in `restore_all_screens`, which the tick never calls, as the third
conjunct shows on the same saved state. -/
theorem c2_tick_restore_counterexample :
    tickStep envNoRefresh 43200 origD1 widD1 =
      (origD1,
       [Action.queryCurrent "D1", Action.queryRegistry "D1", Action.changeAll,
        Action.queryCurrent "D1"]) ∧
    ((tickStep envNoRefresh 43200 origD1 widD1).2.all fun a => !a.isApplyMode) = true ∧
    restoreAllScreens envRegNoRefresh origD1 =
      ([], [Action.changeAll, Action.queryCurrent "D1", Action.queryCurrent "D1",
            Action.queryRegistry "D1", Action.applyMode "D1" 1920 1080 0 0]) :=
  ⟨rfl, rfl, rfl⟩

/-- C2 (amended): when a tick finds an auto-enabled monitor outside its blank
window and in the Blanked state, it performs the global restore of
`reset_displays`: it invokes the process-wide force-refresh and, on success,
clears every tracked device's SavedGeometry (a global reconciliation, not a
single-device restore); on failure the tick changes nothing further — the
per-device SavedGeometry replay exists only in `restore_all_screens`, which
the tick does not call. -/
theorem c2_tick_restore_amended (env : DisplayEnv) (nowSec : Int) (orig : SavedSettings)
    (w : WidgetInfo) (m : Monitor) (se : Int × Int)
    (hen : w.autoEnabled = true) (hp : parseScheduleTimes w = some se)
    (hm : w.monitor = some m) (hwin : inSleepTime se.1 se.2 nowSec = false)
    (hoff : (isMonitorOn env orig m).1 = false) :
    tickStep env nowSec orig w =
      ((if (forceRefreshDisplays env).1 then [] else orig),
       (isMonitorOn env orig m).2 ++ (forceRefreshDisplays env).2) := by
  simp only [tickStep, hen, hp, hm, hwin, resetDisplays]
  by_cases hfr : (forceRefreshDisplays env).1 <;>
    simp [hfr, hoff]

/-- C2 witness: the amended theorem applied at a concrete blanked monitor
outside its window with the force-refresh succeeding. -/
theorem c2_tick_restore_amended_witness :
    tickStep envRefreshOk 43200 origD1 widD1 =
      ((if (forceRefreshDisplays envRefreshOk).1 then [] else origD1),
       (isMonitorOn envRefreshOk origD1 monD1).2 ++ (forceRefreshDisplays envRefreshOk).2) :=
  c2_tick_restore_amended envRefreshOk 43200 origD1 widD1 monD1 (28800, 32400)
    rfl rfl rfl rfl rfl

/-- C3: `is_monitor_on` reports Awake when the device identifier cannot be
resolved; otherwise Blanked whenever a SavedGeometry entry exists for the
resolved device, regardless of the mode query; otherwise Awake exactly when
the current-mode query succeeds with nonzero width and height, and Blanked
when it fails. -/
theorem c3_is_monitor_on_cases (env : DisplayEnv) (orig : SavedSettings) (m : Monitor) :
    ((getDeviceNameByMonitor env orig m).1 = none → (isMonitorOn env orig m).1 = true) ∧
    (∀ dn, (getDeviceNameByMonitor env orig m).1 = some dn →
      ((orig.lookup dn).isSome = true → (isMonitorOn env orig m).1 = false) ∧
      ((orig.lookup dn).isSome = false →
        (isMonitorOn env orig m).1 =
          (match deviceCurrent env dn with
           | some s => decide (0 < s.pelsWidth) && decide (0 < s.pelsHeight)
           | none => false))) := by
  refine ⟨?_, ?_⟩
  · intro h
    simp [isMonitorOn, h]
  · intro dn h
    refine ⟨?_, ?_⟩
    · intro hs
      simp [isMonitorOn, h, hs]
    · intro hn
      cases hd : deviceCurrent env dn <;> simp [isMonitorOn, h, hn, hd]

/-- C3 witness: a device whose current-mode query reports 0 x 0 while a
SavedGeometry entry exists: the entry takes priority and the monitor reads
as Blanked. -/
theorem c3_is_monitor_on_witness :
    (isMonitorOn envZeroMode origD1 monD1).1 = false :=
  ((c3_is_monitor_on_cases envZeroMode origD1 monD1).2 "D1" rfl).1 rfl

/-- C4 (code bug): invoking Blank on an already-Blanked monitor whose
current-mode query succeeds reporting 0 x 0 overwrites the device's
SavedGeometry with the zero-size reading — `turn_off_screen` records the
current settings unconditionally, with no not-already-recorded or nonzero
guard, so a later restore would reapply 0 x 0. -/
theorem c4_blank_overwrites_saved_geometry :
    (isMonitorOn envZeroMode origD1 monD1).1 = false ∧
    origD1.lookup "D1" = some ⟨1920, 1080, 0, 0⟩ ∧
    (turnOffScreen envZeroMode origD1 monD1).1.lookup "D1" = some ⟨0, 0, 0, 0⟩ :=
  ⟨rfl, rfl, rfl⟩

/-- C5: with no persisted section for a monitor's stable key, loading the
schedule configuration returns the defaults: disabled, start 17:00:00, end
07:00:00 (the stored strings parse to those times of day); totality of
`loadMonitorConfig` gives the never-fails part, and an absent or unreadable
file is the empty configuration. -/
theorem c5_load_default (cfg : ConfigFile) (m : Monitor)
    (h : lookupSection cfg (getMonitorConfigKey m) = none) :
    loadMonitorConfig cfg m = ⟨false, "17:0:0", "7:0:0"⟩ ∧
    parseTimeString "17:0:0" = some (17, 0, 0) ∧
    parseTimeString "7:0:0" = some (7, 0, 0) := by
  refine ⟨?_, rfl, rfl⟩
  simp [loadMonitorConfig, h]

/-- C5 witness: loading an unknown key from the empty configuration. -/
theorem c5_load_default_witness :
    loadMonitorConfig cfgEmpty monKeyA = ⟨false, "17:0:0", "7:0:0"⟩ ∧
    parseTimeString "17:0:0" = some (17, 0, 0) ∧
    parseTimeString "7:0:0" = some (7, 0, 0) :=
  c5_load_default cfgEmpty monKeyA rfl

/-- C6 counterexample: an environment whose only device answers its
current-mode query with a geometry that matches no check for the monitor:
the scan finds nothing, yet resolution still returns that device via the
index-based fallback `id - 1` instead of returning nothing. -/
theorem c6_resolution_counterexample :
    (findDeviceLoop [] monNoMatch envOther.devices).1 = none ∧
    (getDeviceNameByMonitor envOther [] monNoMatch).1 = some "D1" :=
  ⟨rfl, rfl⟩

/-- Auxiliary: the geometric device scan returns exactly the first device
satisfying the specification's current-mode / registry-mode / saved-geometry
fallback chain. -/
theorem findDeviceLoop_matches_find (orig : SavedSettings) (m : Monitor)
    (ds : List DisplayDevice) :
    (findDeviceLoop orig m ds).1 =
      (ds.find? (deviceMatchesSpec orig m)).map DisplayDevice.deviceName := by
  induction ds with
  | nil => rfl
  | cons d ds ih =>
    cases hc : d.currentSettings with
    | some s =>
      by_cases hmm : matchesMode s m <;>
        simp [findDeviceLoop, deviceMatchesSpec, List.find?, hc, hmm, ih]
    | none =>
      cases hr : d.registrySettings with
      | some s =>
        by_cases hmm : matchesMode s m <;>
          simp [findDeviceLoop, deviceMatchesSpec, List.find?, hc, hr, hmm, ih]
      | none =>
        cases hl : orig.lookup d.deviceName with
        | some g =>
          by_cases hmm : matchesSaved g m <;>
            simp [findDeviceLoop, deviceMatchesSpec, List.find?, hc, hr, hl, hmm, ih]
        | none =>
          simp [findDeviceLoop, deviceMatchesSpec, List.find?, hc, hr, hl, ih]

/-- C6 (amended): device-name resolution is a pure query equal to the
specification-side description: the first enumerated device matching the
monitor's geometry against its current mode, falling back to the registry
mode and then to any SavedGeometry when the queries fail — and, when no
device matches either check, the device at enumeration index `id - 1`,
returning nothing only when that index lookup also fails. -/
theorem c6_resolution_amended (env : DisplayEnv) (orig : SavedSettings) (m : Monitor) :
    (getDeviceNameByMonitor env orig m).1 = specResolveDeviceName env orig m := by
  have h := findDeviceLoop_matches_find orig m env.devices
  cases hf : (findDeviceLoop orig m env.devices).1 with
  | none =>
    rw [hf] at h
    cases hfd : env.devices.find? (deviceMatchesSpec orig m) with
    | none =>
      simp only [getDeviceNameByMonitor, specResolveDeviceName, hf, hfd]
      cases hif : indexFallback env m <;> simp [hif]
    | some d => rw [hfd] at h; simp at h
  | some dn =>
    rw [hf] at h
    cases hfd : env.devices.find? (deviceMatchesSpec orig m) with
    | none => rw [hfd] at h; simp at h
    | some d =>
      rw [hfd] at h
      simp at h
      simp [getDeviceNameByMonitor, specResolveDeviceName, hf, hfd, h]

/-- C7: a tick skips an auto-disabled monitor entirely: its evaluation
produces no display-API call and no state change, and the loop over the
remaining widgets is unaffected. -/
theorem c7_disabled_skipped (env : DisplayEnv) (nowSec : Int) (orig : SavedSettings)
    (w : WidgetInfo) (ws : List WidgetInfo) (h : w.autoEnabled = false) :
    tickStep env nowSec orig w = (orig, []) ∧
    checkAutoScreenOff env nowSec orig (w :: ws) = checkAutoScreenOff env nowSec orig ws := by
  have h1 : tickStep env nowSec orig w = (orig, []) := by simp [tickStep, h]
  refine ⟨h1, ?_⟩
  simp [checkAutoScreenOff, tickLoop, h1]

/-- C7 witness: the disabled widget over a tracked saved state. -/
theorem c7_disabled_skipped_witness :
    tickStep envNoRefresh 0 origD1 widDisabled = (origD1, []) ∧
    checkAutoScreenOff envNoRefresh 0 origD1 [widDisabled] =
      checkAutoScreenOff envNoRefresh 0 origD1 [] :=
  c7_disabled_skipped envNoRefresh 0 origD1 widDisabled [] rfl

/-- C8: an exception during a single monitor's evaluation (embedded: the
`int()` parse of its time fields failing) is contained inside the tick — the
failing monitor's evaluation changes nothing, and the tick over the remaining
monitors proceeds exactly as if the failing one were absent; the tick itself
is a total function, so no display-API failure propagates out of it. -/
theorem c8_exception_contained (env : DisplayEnv) (nowSec : Int) (orig : SavedSettings)
    (w : WidgetInfo) (ws : List WidgetInfo) (h : parseScheduleTimes w = none) :
    tickStep env nowSec orig w = (orig, []) ∧
    checkAutoScreenOff env nowSec orig (w :: ws) = checkAutoScreenOff env nowSec orig ws := by
  have h1 : tickStep env nowSec orig w = (orig, []) := by
    cases hb : w.autoEnabled <;> simp [tickStep, hb, h]
  refine ⟨h1, ?_⟩
  simp [checkAutoScreenOff, tickLoop, h1]

/-- C8 witness: a widget whose start-hour string fails `int()`, followed by
another widget, over a tracked saved state. -/
theorem c8_exception_contained_witness :
    tickStep envNoRefresh 0 origD1 widBadTimes = (origD1, []) ∧
    checkAutoScreenOff envNoRefresh 0 origD1 (widBadTimes :: [widDisabled]) =
      checkAutoScreenOff envNoRefresh 0 origD1 [widDisabled] :=
  c8_exception_contained envNoRefresh 0 origD1 widBadTimes [widDisabled] rfl

/-- C9: the stable key is a pure function of the monitor's name and
resolution: two monitor records agreeing on name, width and height share the
key — whatever their enumeration id, position or primary flag — and therefore
the configuration loaded for them is identical. -/
theorem c9_stable_key (m1 m2 : Monitor) (cfg : ConfigFile)
    (hn : m1.name = m2.name) (hw : m1.width = m2.width) (hh : m1.height = m2.height) :
    getMonitorConfigKey m1 = getMonitorConfigKey m2 ∧
    loadMonitorConfig cfg m1 = loadMonitorConfig cfg m2 := by
  have hk : getMonitorConfigKey m1 = getMonitorConfigKey m2 := by
    simp [getMonitorConfigKey, hn, hw, hh]
  exact ⟨hk, by simp [loadMonitorConfig, hk]⟩

/-- C9 witness: the same name and resolution under a different enumeration
id, position and primary flag give the same key and the same loaded
configuration. -/
theorem c9_stable_key_witness :
    getMonitorConfigKey monKeyA = getMonitorConfigKey monKeyB ∧
    loadMonitorConfig cfgBadBool monKeyA = loadMonitorConfig cfgBadBool monKeyB :=
  c9_stable_key monKeyA monKeyB cfgBadBool rfl rfl rfl

/-- C10 counterexample: a persisted section whose `auto_enabled` value is
unparsable: the claim puts the result at start 22:00:00, but the raised
`ValueError` escapes the per-field fallbacks and the load falls back to the
absent-key defaults, start 17:00:00 and end 07:00:00. -/
theorem c10_load_counterexample :
    loadMonitorConfig cfgBadBool monKeyA = ⟨false, "17:0:0", "7:0:0"⟩ ∧
    parseTimeString (loadMonitorConfig cfgBadBool monKeyA).startTime = some (17, 0, 0) ∧
    parseTimeString (loadMonitorConfig cfgBadBool monKeyA).startTime ≠ some (22, 0, 0) := by
  refine ⟨rfl, rfl, by decide⟩

/-- C10 (amended): with a persisted section present, a missing
`auto_enabled` option or missing time fields get the per-field fallbacks
disabled / 22:00:00 / 08:00:00, while an unparsable `auto_enabled` value
aborts the whole read and yields the absent-key defaults disabled / 17:00:00
/ 07:00:00 instead. -/
theorem c10_load_amended (cfg : ConfigFile) (m : Monitor)
    (sec : List (String × String))
    (hsec : lookupSection cfg (getMonitorConfigKey m) = some sec) :
    (sec.lookup "auto_enabled" = none →
      loadMonitorConfig cfg m =
        ⟨false, (sec.lookup "start_time").getD "22:00:00",
         (sec.lookup "end_time").getD "08:00:00"⟩) ∧
    (∀ v, sec.lookup "auto_enabled" = some v → parseBoolean v = none →
      loadMonitorConfig cfg m = ⟨false, "17:0:0", "7:0:0"⟩) ∧
    (∀ v b, sec.lookup "auto_enabled" = some v → parseBoolean v = some b →
      loadMonitorConfig cfg m =
        ⟨b, (sec.lookup "start_time").getD "22:00:00",
         (sec.lookup "end_time").getD "08:00:00"⟩) := by
  refine ⟨?_, ?_, ?_⟩
  · intro h
    simp [loadMonitorConfig, hsec, h]
  · intro v hv hb
    simp [loadMonitorConfig, hsec, hv, hb]
  · intro v b hv hb
    simp [loadMonitorConfig, hsec, hv, hb]

/-- C10 witness: a section with `auto_enabled` missing takes the per-field
fallbacks. -/
theorem c10_load_amended_witness :
    loadMonitorConfig cfgNoBool monKeyA =
      ⟨false,
       ((([("start_time", "1:2:3")] : List (String × String)).lookup "start_time").getD
         "22:00:00"),
       ((([("start_time", "1:2:3")] : List (String × String)).lookup "end_time").getD
         "08:00:00")⟩ :=
  (c10_load_amended cfgNoBool monKeyA [("start_time", "1:2:3")] rfl).1 rfl

end ControlEye
